import Mathlib

/-!
Verification of the joke-factory user-account backend: a shallow embedding of
the signup / activation / authentication workflow and its centralized
error-to-HTTP-response mapping, with theorems settling the specification's
claims about it.

Source correspondence:
* `ErrorHandle` / `generateResponse` — the central error mapper
  (`utils/errorHandle`), translated branch for branch.
* `AuthHelperController.httpPostAuth` / `localAuthFailure` — the
  authentication controller.
* `User` — the persistent user record (`User.model.ts`).
Parts of the repository that are referenced but not present (the error
classes' status codes, the signup workflow, the validation schema, the
activation step and the passport glue) are modelled from the spec; each such
definition's doc comment says so.
-/

/-- A JSON-ish value, used to state which keys a response body carries. -/
inductive JValue where
  | str (s : String)
  | num (n : Nat)
  | obj (fields : List (String × JValue))
deriving Repr

/-- A JSON object body: ordered key/value pairs, as `res.send` serializes it. -/
abbrev JBody := List (String × JValue)

/-- The keys of a JSON object body, in order. -/
def JBody.keys (b : JBody) : List String := b.map Prod.fst

/-- The persistent user record, from `User.model.ts`: id, username, email,
stored password (hash), `inactive` flag and nullable `activationToken`. -/
structure User where
  id : Nat
  username : String
  email : String
  password : String
  inactive : Bool
  activationToken : Option String
deriving Repr, DecidableEq

/-- The domain failure values the error mapper dispatches on.  The mapper
(`ErrorHandle`) distinguishes: body-validation failures (carrying a field
message map), duplicate-user failures (carrying the colliding field), the
remaining domain error classes (all handled uniformly through their `code`
and localizable `message` key), plain `Error` instances, and values that are
not `Error` instances at all (which, in JavaScript, may still happen to carry
a `message` property the mapper never reads). -/
inductive ErrValue where
  | bodyValidation (code : Nat) (message : String)
      (validationErrors : List (String × String))
  | userExists (code : Nat) (messageKey : String) (field : String)
  | domain (code : Nat) (messageKey : String)
  | error (message : String)
  | nonError (carriedMessage : Option String)
deriving Repr, DecidableEq

/-- The JSON error envelope built by `generateResponse`:
`{path, timeStamp, message}` plus an optional `validationErrors` map. -/
structure ErrorResponse where
  path : String
  timeStamp : Nat
  message : String
  validationErrors : Option (List (String × String))
deriving Repr, DecidableEq

/-- An HTTP error reply: status code plus the error envelope body. -/
structure HttpErrorReply where
  status : Nat
  body : ErrorResponse
deriving Repr, DecidableEq

/-- The request data the error mapper consumes: `req.originalUrl`, the parsed
request body (field-name/value pairs, for `req.body[field]`), and the
localizer `req.t`. -/
structure Req where
  originalUrl : String
  body : List (String × String)
  t : String → String

/-- `req.body[field]` lookup; a missing field reads as `"undefined"`, as
JavaScript template interpolation renders it. -/
def Req.bodyField (req : Req) (field : String) : String :=
  match req.body.find? (fun e => e.1 = field) with
  | some e => e.2
  | none => "undefined"

/-- `generateResponse` from the error mapper: builds the envelope with
`path`, `timeStamp` (milliseconds at mapping time, passed in as `now`),
`message`, and includes `validationErrors` exactly when one was supplied. -/
def generateResponse (path : String) (now : Nat) (message : String)
    (validationErrors : Option (List (String × String))) : ErrorResponse :=
  match validationErrors with
  | some ve => ⟨path, now, message, some ve⟩
  | none => ⟨path, now, message, none⟩

/-- `ErrorHandle` from the error mapper, branch for branch:
* `ErrorBodyValidation` → its own code, its message verbatim, its field map;
* `ErrorUserExists` → its code, message
  `field ++ ": " ++ req.body[field] ++ " " ++ req.t key`, and a one-entry
  field map with that same message;
* the remaining domain error classes → their code, `req.t` of their key;
* any other `Error` instance → 400 with the error's message;
* a non-`Error` value → 400 with the literal message `"Unknown Error"`. -/
def errorHandle (err : ErrValue) (req : Req) (now : Nat) : HttpErrorReply :=
  let path := req.originalUrl
  match err with
  | .bodyValidation code message ve =>
      ⟨code, generateResponse path now message (some ve)⟩
  | .userExists code messageKey field =>
      let message :=
        field ++ ": " ++ req.bodyField field ++ " " ++ req.t messageKey
      ⟨code, generateResponse path now message (some [(field, message)])⟩
  | .domain code messageKey =>
      ⟨code, generateResponse path now (req.t messageKey) none⟩
  | .error message =>
      ⟨400, generateResponse path now message none⟩
  | .nonError _ =>
      ⟨400, generateResponse path now "Unknown Error" none⟩

/-- A failure kind carries field-level validation errors exactly when it is a
body-validation failure or a duplicate-user failure: those are the two mapper
branches that attach a `validationErrors` map. -/
def carriesFieldErrors : ErrValue → Bool
  | .bodyValidation _ _ _ => true
  | .userExists _ _ _ => true
  | _ => false

/-- A failure is non-domain (unexpected) when it is not one of the domain
error classes the mapper recognizes: a plain `Error` or a non-`Error` value. -/
def isNonDomain : ErrValue → Bool
  | .error _ => true
  | .nonError _ => true
  | _ => false

/-- The message text a failure value itself carries, if any. -/
def errCarriedMessage : ErrValue → Option String
  | .error m => some m
  | .nonError m => m
  | _ => none

/-- Modelled from the spec: the `ErrorClass` definitions are not under
`src/`.  Generic authentication failure → 401, message key localized by the
mapper ("do not reveal whether email exists"). -/
def errorAuthFailed : ErrValue := .domain 401 "authFailure"

/-- Modelled from the spec: the `ErrorClass` definitions are not under
`src/`.  Inactive-account authentication failure → 403, with its own message
key, distinct from the generic failure's. -/
def errorAuthInactiveAccount : ErrValue := .domain 403 "inactiveAccount"

/-- Modelled from the spec: the `ErrorClass` definitions are not under
`src/`.  Duplicate-field failure on signup → 400; the mapper embeds the
colliding field name and submitted value around the localized key. -/
def errorUserExists (field : String) : ErrValue :=
  .userExists 400 "errorUserExist" field

/-- Modelled from the spec: the `ErrorClass` definitions are not under
`src/`.  Invalid/expired activation token → its designated status with a
generic localizable message. -/
def errorInvalidToken : ErrValue := .domain 400 "tokenInvalid"

/-- Modelled from the spec: the `ErrorClass` definitions are not under
`src/`.  Body-validation failure → 400 with the field→message map. -/
def errorBodyValidation (message : String)
    (ve : List (String × String)) : ErrValue :=
  .bodyValidation 400 message ve

/-- `AuthHelperController.httpPostAuth`: with no authenticated user on the
request it forwards a generic authentication failure; otherwise it sends the
object literal `{id: req.user.id, username: req.user.username}` — those two
properties and nothing else. -/
def httpPostAuth (user : Option User) : Except ErrValue JBody :=
  match user with
  | none => .error errorAuthFailed
  | some u => .ok [("id", .num u.id), ("username", .str u.username)]

/-- `AuthHelperController.localAuthFailure`: reads the first flashed error;
if it is the string `"inactive"` it forwards the inactive-account failure,
otherwise the generic authentication failure. -/
def localAuthFailure (flash : List String) : ErrValue :=
  if flash.headD "" = "inactive" then errorAuthInactiveAccount
  else errorAuthFailed

/-- The in-memory user store: the user rows plus the next auto-increment id. -/
structure Store where
  users : List User
  nextId : Nat
deriving Repr, DecidableEq

/-- The empty store, as after `sequelize.sync({force:true})`; sequelize
auto-increment ids start at 1. -/
def Store.empty : Store := ⟨[], 1⟩

/-- Store lookup by email (first matching row). -/
def Store.findByEmail (st : Store) (email : String) : Option User :=
  st.users.find? (fun u => u.email = email)

/-- Store lookup by username (first matching row). -/
def Store.findByUsername (st : Store) (username : String) : Option User :=
  st.users.find? (fun u => u.username = username)

/-- Outcome of one authentication attempt, before it is rendered as HTTP. -/
inductive AuthOutcome where
  | success (u : User)
  | failInactive
  | failGeneric
deriving Repr, DecidableEq

/-- Modelled from the spec: the passport local strategy is not under `src/`.
Per the authentication workflow: look up by email (not found ⇒ generic
failure); found but inactive ⇒ inactive-account failure; verify the password
against the stored hash (mismatch ⇒ generic failure); otherwise success with
the found user.  `verify` is the credential hasher's check. -/
def authenticate (verify : String → String → Bool) (st : Store)
    (email password : String) : AuthOutcome :=
  match st.findByEmail email with
  | none => .failGeneric
  | some u =>
      if u.inactive then .failInactive
      else if verify password u.password then .success u
      else .failGeneric

/-- Modelled from the spec: the passport glue is not under `src/`.  The flash
messages the strategy leaves for the failure redirect: `"inactive"` for an
inactive account, nothing for a generic failure or success. -/
def flashOf : AuthOutcome → List String
  | .failInactive => ["inactive"]
  | _ => []

/-- Modelled from the spec: the auth route registration is not under `src/`.
On failure, the authentication middleware redirects to this internal path,
which is handled by `localAuthFailure`; the error mapper then sees that
request's URL. -/
def localFailurePath : String := "/api/1.0/auth/localFailure"

/-- The request the error mapper sees for an authentication failure: the
redirected request to the internal failure path, with the caller's locale. -/
def localFailureReq (t : String → String) : Req := ⟨localFailurePath, [], t⟩

/-- A reply from `POST /api/1.0/auth`: either an error reply produced by the
mapper, or a 200 with the success body sent by `httpPostAuth`. -/
def ApiAuthReply := HttpErrorReply ⊕ JBody

/-- The full login pipeline for a validated credential body: run the
authentication workflow; on success the controller sends its body (HTTP
200); on failure the redirect lands on `localAuthFailure`, whose error is
rendered by the mapper against the redirected request. -/
def postAuth (verify : String → String → Bool) (st : Store)
    (email password : String) (t : String → String) (now : Nat) :
    HttpErrorReply ⊕ JBody :=
  match authenticate verify st email password with
  | .success u =>
      match httpPostAuth (some u) with
      | .ok body => .inr body
      | .error e => .inl (errorHandle e (localFailureReq t) now)
  | outcome =>
      .inl (errorHandle (localAuthFailure (flashOf outcome))
        (localFailureReq t) now)

/-- A raw signup payload: username, email, plaintext password. -/
structure NewUser where
  username : String
  email : String
  password : String
deriving Repr, DecidableEq

/-- Modelled from the spec: the validation schema is not under `src/`.
Password composition: at least one uppercase letter, one lowercase letter,
one digit and one symbol (a non-alphanumeric character). -/
def passwordComposition (p : String) : Bool :=
  p.data.any Char.isUpper && p.data.any Char.isLower &&
    p.data.any Char.isDigit && p.data.any (fun c => !c.isAlphanum)

/-- Modelled from the spec: the validation schema is not under `src/`.
Password rule, first-match: required-field emptiness is its own message key;
then the 8-character minimum; then the 72-character maximum; then
composition.  Returns the first violated rule's message key, or `none`. -/
def validatePassword (p : String) : Option String :=
  if p = "" then some "errorPasswordEmpty"
  else if p.length < 8 then some "errorPassword2"
  else if p.length > 72 then some "errorPasswordMax"
  else if !passwordComposition p then some "errorPassword1"
  else none

/-- Modelled from the spec: the validation schema is not under `src/`.
Username rule, first-match: required-field emptiness, then the 3-character
minimum, then the 30-character maximum. -/
def validateUsername (u : String) : Option String :=
  if u = "" then some "errorUsernameEmpty"
  else if u.length < 3 then some "userSizeMin"
  else if u.length > 30 then some "userSizeMax"
  else none

/-- Split a character list on a separator character; like
`String.splitOn`, a leading, trailing or doubled separator contributes an
empty piece. -/
def splitChars (sep : Char) : List Char → List (List Char)
  | [] => [[]]
  | c :: cs =>
      if c = sep then [] :: splitChars sep cs
      else
        match splitChars sep cs with
        | [] => [[c]]
        | piece :: rest => (c :: piece) :: rest

/-- Modelled from the spec: the validation schema is not under `src/`.
Email well-formedness: exactly one `@`, a nonempty local part, and a domain
of at least two nonempty dot-separated labels. -/
def isValidEmailFormat (e : String) : Bool :=
  match splitChars '@' e.data with
  | [l, d] =>
      let labels := splitChars '.' d
      !l.isEmpty && labels.length ≥ 2 && labels.all (fun s => !s.isEmpty)
  | _ => false

/-- Modelled from the spec: the validation schema is not under `src/`.
Email rule, first-match: required-field emptiness, then syntax. -/
def validateEmail (e : String) : Option String :=
  if e = "" then some "errorEmailEmpty"
  else if !isValidEmailFormat e then some "errorEmailInvalid"
  else none

/-- One field's contribution to the validation-error list: one entry when
the field's rule chain reports a message, nothing otherwise. -/
def fieldEntry (field : String) : Option String → List (String × String)
  | some m => [(field, m)]
  | none => []

/-- Modelled from the spec: the signup validation schema is not under
`src/`.  Per-field validation of the signup payload, each field independent
of the others, at most one message per field. -/
def validateSignUp (p : NewUser) : List (String × String) :=
  fieldEntry "username" (validateUsername p.username) ++
    fieldEntry "email" (validateEmail p.email) ++
    fieldEntry "password" (validatePassword p.password)

/-- An activation notification actually dispatched: recipient address and
the activation token the message contains. -/
structure Notif where
  recipient : String
  token : String
deriving Repr, DecidableEq

/-- Modelled from the spec: `UserHelperModel.createUser` is not under
`src/`.  Signup persistence, each step a hard gate: reject if the username
or the email already exists (naming the colliding field); otherwise hash the
password, persist the user with `inactive = true` and the generated
activation token, and hand the created row back.  `hash` is the credential
hasher and `tok` the generated activation token. -/
def createUser (hash : String → String) (tok : String) (st : Store)
    (p : NewUser) : Except ErrValue (Store × User) :=
  if (st.findByUsername p.username).isSome then
    .error (errorUserExists "username")
  else if (st.findByEmail p.email).isSome then
    .error (errorUserExists "email")
  else
    let u : User :=
      ⟨st.nextId, p.username, p.email, hash p.password, true, some tok⟩
    .ok (⟨st.users ++ [u], st.nextId + 1⟩, u)

/-- The signup failure body the signup controller sends:
`{signUpStatus: "failed", message}` plus an optional `validationErrors`
map — a different envelope from the central mapper's. -/
structure SignUpFailedBody where
  signUpStatus : String
  message : String
  validationErrors : Option (List (String × String))
deriving Repr, DecidableEq

/-- Modelled from the spec and its tests: `handleSignUpError` is not under
`src/`.  It renders the same failure kinds as the central mapper, with the
same message logic (duplicate-user messages embed the field and
`req.body[field]`; non-`Error` values become `"Unknown Error"`), into the
signup envelope with `signUpStatus: "failed"`. -/
def handleSignUpError (err : ErrValue) (req : Req) :
    Nat × SignUpFailedBody :=
  match err with
  | .bodyValidation code message ve => (code, ⟨"failed", message, some ve⟩)
  | .userExists code messageKey field =>
      let m := field ++ ": " ++ req.bodyField field ++ " " ++ req.t messageKey
      (code, ⟨"failed", m, some [(field, m)]⟩)
  | .domain code messageKey => (code, ⟨"failed", req.t messageKey, none⟩)
  | .error message => (400, ⟨"failed", message, none⟩)
  | .nonError _ => (400, ⟨"failed", "Unknown Error", none⟩)

/-- The signup success body:
`{signUpStatus: "success", message, user: {id, username, email}}` — the
created user's id, username and email, and nothing else. -/
def signUpSuccessBody (u : User) (t : String → String) : JBody :=
  [("signUpStatus", .str "success"), ("message", .str (t "userCreated")),
   ("user", .obj [("id", .num u.id), ("username", .str u.username),
      ("email", .str u.email)])]

/-- A reply from `POST /api/1.0/users`: a success status with the JSON body,
or a failure status with the signup failure envelope. -/
inductive SignUpReply where
  | ok (status : Nat) (body : JBody)
  | err (status : Nat) (body : SignUpFailedBody)
deriving Repr

/-- The request the signup error responder sees: the signup URL, the
submitted payload as the request body, and the caller's localizer. -/
def signUpReq (p : NewUser) (t : String → String) : Req :=
  ⟨"/api/1.0/users",
   [("username", p.username), ("email", p.email), ("password", p.password)],
   t⟩

/-- Modelled from the spec: `ErrorSendEmailActivation` is not under `src/`;
the failure raised when the activation notification cannot be dispatched. -/
def errorSendEmailActivation : ErrValue := .domain 502 "errorSendEmail"

/-- Modelled from the spec: the signup controller
(`UserHelperController.httpPostSignUp`) and its middleware are not under
`src/`.  Pipeline: validation strictly first (fail-fast, no side effect);
then `createUser` (duplicate gate, hash, persist inactive with token); then
the activation notification, best-effort — when dispatch fails the request
fails but the created row is NOT rolled back; on success, HTTP 200 with the
signup success body.  Returns the resulting store, the dispatched
notifications, and the reply. -/
def httpPostSignUp (hash : String → String) (tok : String) (sendOk : Bool)
    (st : Store) (p : NewUser) (t : String → String) :
    Store × List Notif × SignUpReply :=
  match validateSignUp p with
  | e :: rest =>
      (st, [], .err 400 ⟨"failed", e.2, some (e :: rest)⟩)
  | [] =>
      match createUser hash tok st p with
      | .error err =>
          let r := handleSignUpError err (signUpReq p t)
          (st, [], .err r.1 r.2)
      | .ok (st', u) =>
          if sendOk then
            (st', [⟨p.email, tok⟩], .ok 200 (signUpSuccessBody u t))
          else
            let r := handleSignUpError errorSendEmailActivation (signUpReq p t)
            (st', [], .err r.1 r.2)

/-- Modelled from the spec: the activation step is not under `src/`.  Walk
the rows; on the first whose `activationToken` matches, clear the token and
set `inactive` to false; `none` when no row matches. -/
def activateRow : List User → String → Option (List User)
  | [], _ => none
  | u :: rest, tok =>
      if u.activationToken = some tok then
        some ({ u with inactive := false, activationToken := none } :: rest)
      else
        (activateRow rest tok).map (fun l => u :: l)

/-- Modelled from the spec: `UserHelperModel.activateUser` is not under
`src/`.  Given a token, look up the user whose `activationToken` matches: no
match ⇒ invalid-token failure; match ⇒ clear the token and set
`inactive = false`. -/
def activateUser (st : Store) (tok : String) : Except ErrValue Store :=
  match activateRow st.users tok with
  | none => .error errorInvalidToken
  | some l => .ok ⟨l, st.nextId⟩

/-- The store-mutating operations of the lifecycle: signup (with the
already-hashed password and the generated token), token activation,
authenticated update of username/email, and delete. -/
inductive StoreOp where
  | signUp (username email passwordHash tok : String)
  | activate (tok : String)
  | updateUser (id : Nat) (username email : String)
  | deleteUser (id : Nat)
deriving Repr, DecidableEq

/-- Modelled from the spec: the lifecycle glue is not under `src/`.  One
operation against the store; a failing operation leaves the store
unchanged.  Signup goes through `createUser` (with the hash already
applied), activation through `activateUser`; update touches only username
and email; delete removes the row. -/
def applyOp (st : Store) : StoreOp → Store
  | .signUp username email passwordHash tok =>
      match createUser (fun s => s) tok st ⟨username, email, passwordHash⟩ with
      | .ok (st', _) => st'
      | .error _ => st
  | .activate tok =>
      match activateUser st tok with
      | .ok st' => st'
      | .error _ => st
  | .updateUser id username email =>
      ⟨st.users.map (fun u =>
         if u.id = id then { u with username := username, email := email }
         else u),
       st.nextId⟩
  | .deleteUser id =>
      ⟨st.users.filter (fun u => u.id ≠ id), st.nextId⟩

/-- The store reached by a sequence of operations from the empty store. -/
def runOps (ops : List StoreOp) : Store :=
  ops.foldl applyOp Store.empty

/-- The two-field invariant: a row is either inactive with a non-null
activation token, or active with a null one. -/
def goodUser (u : User) : Prop :=
  (u.inactive = true ∧ u.activationToken ≠ none) ∨
    (u.inactive = false ∧ u.activationToken = none)

instance (u : User) : Decidable (goodUser u) := by
  unfold goodUser
  infer_instance

/-- The invariant over a whole store. -/
def storeInv (st : Store) : Prop :=
  ∀ u ∈ st.users, goodUser u

/-! Concrete fixtures used to instantiate the theorems: a sample hasher and
its verifier, the identity localizer, the spec's sample user, and small
stores holding that user in its active and inactive states. -/

/-- A concrete credential hasher for instantiations: prefixes the plaintext
(so the digest never equals the plaintext). -/
def hash0 : String → String := fun s => "h$" ++ s

/-- The verifier matching `hash0`: a candidate matches a digest when hashing
the candidate reproduces the digest. -/
def verify0 : String → String → Bool := fun plain digest => hash0 plain = digest

/-- The identity localizer: every message key translates to itself. -/
def t0 : String → String := fun key => key

/-- The spec's sample signup payload. -/
def payload1 : NewUser := ⟨"user1", "user1@gmail.com", "A4GuaN@SmZ"⟩

/-- The sample user after activation: active, token cleared. -/
def user1active : User :=
  ⟨1, "user1", "user1@gmail.com", hash0 "A4GuaN@SmZ", false, none⟩

/-- The sample user before activation: inactive, holding token `"tok-1"`. -/
def user1inactive : User :=
  ⟨1, "user1", "user1@gmail.com", hash0 "A4GuaN@SmZ", true, some "tok-1"⟩

/-- A store holding only the activated sample user. -/
def stActive : Store := ⟨[user1active], 2⟩

/-- A store holding only the not-yet-activated sample user. -/
def stInactive : Store := ⟨[user1inactive], 2⟩

/-- A sample request for the error mapper, with the identity localizer. -/
def req0 : Req := ⟨"/api/1.0/users", [], t0⟩

/-- The non-`Error` failure value from the repository's own test suite: not
an `Error` instance, yet carrying a `message` property. -/
def nonErrorWithMessage : ErrValue := .nonError (some "Something went wrong")

/-- C9: every error reply's envelope carries the request's URL as `path`,
the mapping-time clock as `timeStamp`, a `message`, and a
`validationErrors` key exactly for the failure kinds that carry field-level
validation errors. -/
theorem C9_error_envelope (err : ErrValue) (req : Req) (now : Nat) :
    (errorHandle err req now).body.path = req.originalUrl ∧
    (errorHandle err req now).body.timeStamp = now ∧
    ((errorHandle err req now).body.validationErrors.isSome ↔
      carriesFieldErrors err = true) := by
  cases err <;>
    simp [errorHandle, generateResponse, carriesFieldErrors]

/-- C4, counterexample: the claim says `"Unknown Error"` is used exactly
when the failure carries no message, but the mapper decides by
`instanceof Error`: a non-`Error` value that does carry a message (the
repository's own test feeds `{message: 'Something went wrong'}`) is still
rendered as `"Unknown Error"`. -/
theorem C4_counterexample :
    isNonDomain nonErrorWithMessage = true ∧
    errCarriedMessage nonErrorWithMessage = some "Something went wrong" ∧
    (errorHandle nonErrorWithMessage req0 0).body.message = "Unknown Error" ∧
    "Unknown Error" ≠ "Something went wrong" :=
  ⟨rfl, rfl, rfl, by decide⟩

/-- C4, amended: every non-domain failure is mapped to status 400; the
message is the failure's own text when the failure is an `Error` instance,
and the literal `"Unknown Error"` otherwise — even when the non-`Error`
value carries a message. -/
theorem C4_unexpected_mapping (err : ErrValue) (req : Req) (now : Nat)
    (h : isNonDomain err = true) :
    (errorHandle err req now).status = 400 ∧
    (errorHandle err req now).body.message =
      match err with
      | .error m => m
      | _ => "Unknown Error" := by
  cases err with
  | bodyValidation code message ve => exact Bool.noConfusion h
  | userExists code messageKey field => exact Bool.noConfusion h
  | domain code messageKey => exact Bool.noConfusion h
  | error message => exact ⟨rfl, rfl⟩
  | nonError carriedMessage => exact ⟨rfl, rfl⟩

/-- Witness for C4's amended theorem at the repository's own test inputs. -/
theorem C4_witness :
    ((errorHandle (ErrValue.error "Database error") req0 0).status = 400 ∧
      (errorHandle (ErrValue.error "Database error") req0 0).body.message =
        "Database error") ∧
    ((errorHandle nonErrorWithMessage req0 0).status = 400 ∧
      (errorHandle nonErrorWithMessage req0 0).body.message =
        "Unknown Error") :=
  ⟨C4_unexpected_mapping (ErrValue.error "Database error") req0 0 rfl,
   C4_unexpected_mapping nonErrorWithMessage req0 0 rfl⟩

/-- C10: whatever the cause, every failed authentication attempt against
`POST /api/1.0/auth` is rendered against the internal failure-redirect
request, so the envelope's `path` is `/api/1.0/auth/localFailure` — not the
URL the client submitted to. -/
theorem C10_failure_path (verify : String → String → Bool) (st : Store)
    (email password : String) (t : String → String) (now : Nat)
    (reply : HttpErrorReply)
    (h : postAuth verify st email password t now = Sum.inl reply) :
    reply.body.path = "/api/1.0/auth/localFailure" ∧
    reply.body.path ≠ "/api/1.0/auth" := by
  have hpath : reply.body.path = localFailurePath := by
    unfold postAuth at h
    cases hauth : authenticate verify st email password with
    | success u => rw [hauth] at h; exact Sum.noConfusion h
    | failInactive =>
        rw [hauth] at h
        simp only [Sum.inl.injEq] at h
        rw [← h]
        rfl
    | failGeneric =>
        rw [hauth] at h
        simp only [Sum.inl.injEq] at h
        rw [← h]
        rfl
  exact ⟨hpath, by rw [hpath]; decide⟩

/-- Witness for C10 at a concrete failed login (empty store). -/
theorem C10_witness :
    (⟨401, ⟨"/api/1.0/auth/localFailure", 0, "authFailure", none⟩⟩ :
        HttpErrorReply).body.path = "/api/1.0/auth/localFailure" ∧
    (⟨401, ⟨"/api/1.0/auth/localFailure", 0, "authFailure", none⟩⟩ :
        HttpErrorReply).body.path ≠ "/api/1.0/auth" :=
  C10_failure_path verify0 Store.empty "user1@gmail.com" "A4GuaN@SmZ" t0 0
    ⟨401, ⟨"/api/1.0/auth/localFailure", 0, "authFailure", none⟩⟩ rfl

/-- C1 is a code bug, not a property of the code: on a successful login the
controller sends the object literal `{id, username}` and nothing else — the
session token the spec and the repository's own tests require
(`['id', 'username', 'token']`) is absent from the body. -/
theorem C1_success_body_keys :
    postAuth verify0 stActive "user1@gmail.com" "A4GuaN@SmZ" t0 0 =
      Sum.inr [("id", JValue.num 1), ("username", JValue.str "user1")] ∧
    JBody.keys [("id", JValue.num 1), ("username", JValue.str "user1")] =
      ["id", "username"] ∧
    (["id", "username"] : List String) ≠ ["id", "username", "token"] :=
  ⟨rfl, rfl, by decide⟩

/-- C3: the three login-failure shapes.  An existing but inactive account
fails with 403 and the inactive-specific message; a nonexistent email and a
wrong password both fail with 401 and the very same generic reply, so the
two generic failures are indistinguishable from the response. -/
theorem C3_login_failures (verify : String → String → Bool) (st : Store)
    (email password : String) (t : String → String) (now : Nat) :
    (∀ u, st.findByEmail email = some u → u.inactive = true →
      postAuth verify st email password t now =
        Sum.inl ⟨403, ⟨localFailurePath, now, t "inactiveAccount", none⟩⟩) ∧
    (st.findByEmail email = none →
      postAuth verify st email password t now =
        Sum.inl ⟨401, ⟨localFailurePath, now, t "authFailure", none⟩⟩) ∧
    (∀ u, st.findByEmail email = some u → u.inactive = false →
      verify password u.password = false →
      postAuth verify st email password t now =
        Sum.inl ⟨401, ⟨localFailurePath, now, t "authFailure", none⟩⟩) := by
  refine ⟨?_, ?_, ?_⟩
  · intro u hfind hin
    simp [postAuth, authenticate, hfind, hin, flashOf, localAuthFailure,
      errorAuthInactiveAccount, errorHandle, generateResponse,
      localFailureReq, localFailurePath]
  · intro hfind
    simp [postAuth, authenticate, hfind, flashOf, localAuthFailure,
      errorAuthFailed, errorHandle, generateResponse,
      localFailureReq, localFailurePath]
  · intro u hfind hin hverify
    simp [postAuth, authenticate, hfind, hin, hverify, flashOf,
      localAuthFailure, errorAuthFailed, errorHandle, generateResponse,
      localFailureReq, localFailurePath]

/-- Witness for C3: the inactive sample account is refused with 403, and on
the empty store the same credentials are refused with the 401 generic reply;
a wrong password against the activated account yields the identical 401
reply. -/
theorem C3_witness :
    postAuth verify0 stInactive "user1@gmail.com" "A4GuaN@SmZ" t0 0 =
      Sum.inl ⟨403, ⟨localFailurePath, 0, t0 "inactiveAccount", none⟩⟩ ∧
    postAuth verify0 Store.empty "user1@gmail.com" "A4GuaN@SmZ" t0 0 =
      Sum.inl ⟨401, ⟨localFailurePath, 0, t0 "authFailure", none⟩⟩ ∧
    postAuth verify0 stActive "user1@gmail.com" "wrong-password" t0 0 =
      Sum.inl ⟨401, ⟨localFailurePath, 0, t0 "authFailure", none⟩⟩ :=
  ⟨(C3_login_failures verify0 stInactive "user1@gmail.com" "A4GuaN@SmZ" t0
      0).1 user1inactive (by decide) (by decide),
   (C3_login_failures verify0 Store.empty "user1@gmail.com" "A4GuaN@SmZ" t0
      0).2.1 (by decide),
   (C3_login_failures verify0 stActive "user1@gmail.com" "wrong-password" t0
      0).2.2 user1active (by decide) (by decide) (by decide)⟩

/-- C2: a valid signup payload against a store free of the username and the
email (and a working notifier) yields HTTP 200 with exactly
`{signUpStatus, message, user:{id, username, email}}` — no password, no
token —, persists exactly one new row that is inactive, holds the non-empty
activation token and the hash (not the plaintext), and dispatches exactly
one activation notification to the submitted email carrying that token. -/
theorem C2_signup_success (hash : String → String) (tok : String)
    (st : Store) (p : NewUser) (t : String → String)
    (hval : validateSignUp p = [])
    (hnu : st.findByUsername p.username = none)
    (hne : st.findByEmail p.email = none)
    (hhash : hash p.password ≠ p.password)
    (htok : tok ≠ "") :
    ∃ u : User,
      httpPostSignUp hash tok true st p t =
        (⟨st.users ++ [u], st.nextId + 1⟩, [⟨p.email, tok⟩],
          .ok 200 (signUpSuccessBody u t)) ∧
      signUpSuccessBody u t =
        [("signUpStatus", .str "success"),
         ("message", .str (t "userCreated")),
         ("user", .obj [("id", .num u.id), ("username", .str u.username),
            ("email", .str u.email)])] ∧
      JBody.keys (signUpSuccessBody u t) =
        ["signUpStatus", "message", "user"] ∧
      u.id = st.nextId ∧ u.username = p.username ∧ u.email = p.email ∧
      u.inactive = true ∧ u.activationToken = some tok ∧ tok ≠ "" ∧
      u.password = hash p.password ∧ u.password ≠ p.password := by
  refine ⟨⟨st.nextId, p.username, p.email, hash p.password, true, some tok⟩,
    ?_, rfl, rfl, rfl, rfl, rfl, rfl, rfl, htok, rfl, hhash⟩
  simp [httpPostSignUp, hval, createUser, hnu, hne]

/-- Witness for C2 at the spec's concrete scenario on the empty store. -/
theorem C2_witness :
    ∃ u : User,
      httpPostSignUp hash0 "tok-abc" true Store.empty payload1 t0 =
        (⟨Store.empty.users ++ [u], Store.empty.nextId + 1⟩,
          [⟨payload1.email, "tok-abc"⟩],
          .ok 200 (signUpSuccessBody u t0)) ∧
      signUpSuccessBody u t0 =
        [("signUpStatus", .str "success"),
         ("message", .str (t0 "userCreated")),
         ("user", .obj [("id", .num u.id), ("username", .str u.username),
            ("email", .str u.email)])] ∧
      JBody.keys (signUpSuccessBody u t0) =
        ["signUpStatus", "message", "user"] ∧
      u.id = Store.empty.nextId ∧ u.username = payload1.username ∧
      u.email = payload1.email ∧
      u.inactive = true ∧ u.activationToken = some "tok-abc" ∧
      "tok-abc" ≠ "" ∧
      u.password = hash0 payload1.password ∧
      u.password ≠ payload1.password :=
  C2_signup_success hash0 "tok-abc" Store.empty payload1 t0 (by decide)
    (by decide) (by decide) (by decide) (by decide)

/-- C5: a signup whose username (or, the username being free, whose email)
already exists fails with 400; the message is the colliding field's name,
the submitted value and the localized already-exists text; and the
`validationErrors` map holds exactly the one entry, keyed by that field,
carrying that same message.  The store and the notifications are
untouched. -/
theorem C5_duplicate_field (hash : String → String) (tok : String)
    (sendOk : Bool) (st : Store) (p : NewUser) (t : String → String)
    (hval : validateSignUp p = []) :
    (∀ u, st.findByUsername p.username = some u →
      httpPostSignUp hash tok sendOk st p t =
        (st, [], .err 400 ⟨"failed",
          "username" ++ ": " ++ p.username ++ " " ++ t "errorUserExist",
          some [("username",
            "username" ++ ": " ++ p.username ++ " " ++
              t "errorUserExist")]⟩)) ∧
    (∀ u, st.findByUsername p.username = none →
      st.findByEmail p.email = some u →
      httpPostSignUp hash tok sendOk st p t =
        (st, [], .err 400 ⟨"failed",
          "email" ++ ": " ++ p.email ++ " " ++ t "errorUserExist",
          some [("email",
            "email" ++ ": " ++ p.email ++ " " ++ t "errorUserExist")]⟩)) := by
  constructor
  · intro u hfind
    simp [httpPostSignUp, hval, createUser, hfind, handleSignUpError,
      errorUserExists, signUpReq, Req.bodyField, List.find?]
  · intro u hnu hfind
    simp [httpPostSignUp, hval, createUser, hnu, hfind, handleSignUpError,
      errorUserExists, signUpReq, Req.bodyField, List.find?]

/-- Witness for C5: re-submitting the sample payload against the store that
already holds the sample user collides on the username; the same payload
under a fresh username collides on the email. -/
theorem C5_witness :
    httpPostSignUp hash0 "tok-abc" true stActive payload1 t0 =
      (stActive, [], .err 400 ⟨"failed", "username: user1 errorUserExist",
        some [("username", "username: user1 errorUserExist")]⟩) ∧
    httpPostSignUp hash0 "tok-abc" true stActive
        ⟨"userFree", "user1@gmail.com", "A4GuaN@SmZ"⟩ t0 =
      (stActive, [], .err 400 ⟨"failed",
        "email: user1@gmail.com errorUserExist",
        some [("email", "email: user1@gmail.com errorUserExist")]⟩) :=
  ⟨(C5_duplicate_field hash0 "tok-abc" true stActive payload1 t0
      (by decide)).1 user1active (by decide),
   (C5_duplicate_field hash0 "tok-abc" true stActive
      ⟨"userFree", "user1@gmail.com", "A4GuaN@SmZ"⟩ t0 (by decide)).2
      user1active (by decide) (by decide)⟩

/-- C6, counterexample: the empty password is shorter than 8 characters,
yet validation reports the required-field message (`errorPasswordEmpty` in
the repository's own test table), not the minimum-length message
(`errorPassword2`). -/
theorem C6_counterexample :
    ("" : String).length < 8 ∧
    validatePassword "" = some "errorPasswordEmpty" ∧
    some "errorPasswordEmpty" ≠ some ("errorPassword2" : String) :=
  ⟨by decide, rfl, by decide⟩

/-- C6, amended: for every non-empty password shorter than 8 characters the
minimum-length message is reported regardless of composition (the empty
password gets the required-field message instead); for every password of
acceptable length violating composition, the composition message; and for
every invalid field the assembled validation-error list holds exactly the
one first-match entry for that field. -/
theorem C6_password_validation (pw : String) (p : NewUser) :
    (pw ≠ "" → pw.length < 8 →
      validatePassword pw = some "errorPassword2") ∧
    (8 ≤ pw.length → pw.length ≤ 72 → passwordComposition pw = false →
      validatePassword pw = some "errorPassword1") ∧
    (∀ m, validateUsername p.username = some m →
      (validateSignUp p).filter (fun e => e.1 = "username") =
        [("username", m)]) ∧
    (∀ m, validateEmail p.email = some m →
      (validateSignUp p).filter (fun e => e.1 = "email") = [("email", m)]) ∧
    (∀ m, validatePassword p.password = some m →
      (validateSignUp p).filter (fun e => e.1 = "password") =
        [("password", m)]) := by
  refine ⟨?_, ?_, ?_, ?_, ?_⟩
  · intro h1 h2
    simp [validatePassword, h1, h2]
  · intro h8 h72 hcomp
    have h1 : pw ≠ "" := by
      intro e
      rw [e] at h8
      exact absurd h8 (by decide)
    rw [validatePassword, if_neg h1, if_neg (by omega), if_neg (by omega),
      hcomp]
    rfl
  · intro m hm
    rcases he : validateEmail p.email with _ | me <;>
      rcases hp : validatePassword p.password with _ | mp <;>
        simp [validateSignUp, fieldEntry, hm, he, hp]
  · intro m hm
    rcases hu : validateUsername p.username with _ | mu <;>
      rcases hp : validatePassword p.password with _ | mp <;>
        simp [validateSignUp, fieldEntry, hm, hu, hp]
  · intro m hm
    rcases hu : validateUsername p.username with _ | mu <;>
      rcases he : validateEmail p.email with _ | me <;>
        simp [validateSignUp, fieldEntry, hm, hu, he]

/-- Witness for C6: `"P1@a"` (length 4, composition satisfied) gets the
minimum-length message; `"password"` (length 8, composition violated) gets
the composition message; a too-short username contributes exactly one
entry. -/
theorem C6_witness :
    validatePassword "P1@a" = some "errorPassword2" ∧
    validatePassword "password" = some "errorPassword1" ∧
    (validateSignUp ⟨"as", "user1@gmail.com", "A4GuaN@SmZ"⟩).filter
        (fun e => e.1 = "username") = [("username", "userSizeMin")] :=
  ⟨(C6_password_validation "P1@a" payload1).1 (by decide) (by decide),
   (C6_password_validation "password" payload1).2.1 (by decide) (by decide)
     (by decide),
   (C6_password_validation ""
      ⟨"as", "user1@gmail.com", "A4GuaN@SmZ"⟩).2.2.1 "userSizeMin"
     (by decide)⟩

/-- The activation walk finds no row exactly when no row holds the token. -/
theorem activateRow_eq_none (l : List User) (tok : String) :
    activateRow l tok = none ↔ ∀ u ∈ l, u.activationToken ≠ some tok := by
  induction l with
  | nil => simp [activateRow]
  | cons u rest ih =>
      by_cases h : u.activationToken = some tok
      · simp [activateRow, h]
      · simp [activateRow, h, Option.map_eq_none', ih]

/-- A successful activation walk splits the rows into an untouched prefix
without the token, the first row holding the token (now cleared and
activated), and an untouched suffix. -/
theorem activateRow_eq_some (l : List User) (tok : String) (l' : List User)
    (h : activateRow l tok = some l') :
    ∃ l₁ u l₂, l = l₁ ++ u :: l₂ ∧
      (∀ v ∈ l₁, v.activationToken ≠ some tok) ∧
      u.activationToken = some tok ∧
      l' = l₁ ++ { u with inactive := false, activationToken := none } ::
        l₂ := by
  induction l generalizing l' with
  | nil => simp [activateRow] at h
  | cons u rest ih =>
      by_cases hu : u.activationToken = some tok
      · refine ⟨[], u, rest, by simp, by simp, hu, ?_⟩
        simp only [activateRow, if_pos hu, Option.some.injEq] at h
        simp [← h]
      · simp only [activateRow, if_neg hu, Option.map_eq_some'] at h
        obtain ⟨a, ha, hl⟩ := h
        obtain ⟨l₁, w, l₂, e1, e2, e3, e4⟩ := ih a ha
        refine ⟨u :: l₁, w, l₂, by simp [e1], ?_, e3, by simp [← hl, e4]⟩
        intro v hv
        rcases List.mem_cons.mp hv with h1 | h2
        · rw [h1]; exact hu
        · exact e2 v h2

/-- C7: with a valid token — one the store holds on exactly one row —
activation succeeds, that row ends up active with the token cleared, and
re-submitting the very same token afterwards fails with the invalid-token
failure: it never silently succeeds twice. -/
theorem C7_activation_roundtrip (st : Store) (tok : String)
    (hone : st.users.countP
      (fun u => u.activationToken = some tok) = 1) :
    ∃ st', activateUser st tok = .ok st' ∧
      (∃ u ∈ st.users, u.activationToken = some tok ∧
        { u with inactive := false, activationToken := none } ∈
          st'.users) ∧
      activateUser st' tok = .error errorInvalidToken := by
  have hrow : ¬ activateRow st.users tok = none := by
    intro hn
    rw [activateRow_eq_none] at hn
    have hzero : st.users.countP
        (fun u => u.activationToken = some tok) = 0 := by
      rw [List.countP_eq_zero]
      intro a ha
      simpa using hn a ha
    omega
  obtain ⟨l', hl'⟩ := Option.ne_none_iff_exists'.mp hrow
  obtain ⟨l₁, u, l₂, e1, e2, e3, e4⟩ := activateRow_eq_some _ _ _ hl'
  have hl₂ : ∀ v ∈ l₂, v.activationToken ≠ some tok := by
    have hcount : (l₁ ++ u :: l₂).countP
        (fun v => v.activationToken = some tok) = 1 := by
      rw [← e1]; exact hone
    rw [List.countP_append, List.countP_cons_of_pos _ _ (by simpa using e3)]
      at hcount
    have hz : l₂.countP (fun v => v.activationToken = some tok) = 0 := by
      omega
    rw [List.countP_eq_zero] at hz
    intro v hv
    simpa using hz v hv
  refine ⟨⟨l', st.nextId⟩, ?_, ⟨u, ?_, e3, ?_⟩, ?_⟩
  · simp [activateUser, hl']
  · rw [e1]; simp
  · rw [e4]; simp
  · have hnone : activateRow l' tok = none := by
      rw [activateRow_eq_none]
      intro v hv
      rw [e4] at hv
      rcases List.mem_append.mp hv with h1 | h2
      · exact e2 v h1
      · rcases List.mem_cons.mp h2 with h3 | h4
        · rw [h3]; simp
        · exact hl₂ v h4
    simp [activateUser, hnone]

/-- Witness for C7 at the inactive sample store, whose single row holds the
token `"tok-1"`. -/
theorem C7_witness :
    ∃ st', activateUser stInactive "tok-1" = .ok st' ∧
      (∃ u ∈ stInactive.users, u.activationToken = some "tok-1" ∧
        { u with inactive := false, activationToken := none } ∈
          st'.users) ∧
      activateUser st' "tok-1" = .error errorInvalidToken :=
  C7_activation_roundtrip stInactive "tok-1" (by decide)

/-- A successful `createUser` appends exactly one new inactive, tokened row
and leaves the existing rows untouched. -/
theorem createUser_ok_users (hash : String → String) (tok : String)
    (st : Store) (p : NewUser) (st' : Store) (u : User)
    (h : createUser hash tok st p = .ok (st', u)) :
    st'.users = st.users ++
      [⟨st.nextId, p.username, p.email, hash p.password, true, some tok⟩] := by
  unfold createUser at h
  split_ifs at h
  all_goals
    first
      | exact Except.noConfusion h
      | (simp only [Except.ok.injEq, Prod.mk.injEq] at h
         rw [← h.1])

/-- Every store operation preserves the two-field invariant. -/
theorem storeInv_applyOp (st : Store) (op : StoreOp) (h : storeInv st) :
    storeInv (applyOp st op) := by
  cases op with
  | signUp username email passwordHash tok =>
      simp only [applyOp]
      rcases hc : createUser (fun s => s) tok st
          ⟨username, email, passwordHash⟩ with err | ⟨st', u⟩
      · exact h
      · intro v hv
        rw [createUser_ok_users _ _ _ _ _ _ hc] at hv
        rcases List.mem_append.mp hv with h1 | h2
        · exact h v h1
        · rw [List.mem_singleton.mp h2]
          exact Or.inl ⟨rfl, by simp⟩
  | activate tok =>
      simp only [applyOp]
      rcases ha : activateUser st tok with err | st'
      · exact h
      · intro v hv
        unfold activateUser at ha
        rcases hrow : activateRow st.users tok with _ | l
        · rw [hrow] at ha; exact Except.noConfusion ha
        · rw [hrow] at ha
          simp only [Except.ok.injEq] at ha
          obtain ⟨l₁, u, l₂, e1, e2, e3, e4⟩ :=
            activateRow_eq_some _ _ _ hrow
          rw [← ha, e4] at hv
          rcases List.mem_append.mp hv with h1 | h2
          · exact h v (by rw [e1]; exact List.mem_append.mpr (Or.inl h1))
          · rcases List.mem_cons.mp h2 with h3 | h4
            · rw [h3]; exact Or.inr ⟨rfl, rfl⟩
            · exact h v (by
                rw [e1]
                exact List.mem_append.mpr
                  (Or.inr (List.mem_cons.mpr (Or.inr h4))))
  | updateUser id username email =>
      intro v hv
      simp only [applyOp] at hv
      obtain ⟨w, hw, hvw⟩ := List.mem_map.mp hv
      have hgw := h w hw
      by_cases hid : w.id = id
      · rw [← hvw]
        simp only [if_pos hid]
        rcases hgw with ⟨h1, h2⟩ | ⟨h1, h2⟩
        · exact Or.inl ⟨h1, h2⟩
        · exact Or.inr ⟨h1, h2⟩
      · rw [← hvw]
        simp only [if_neg hid]
        exact hgw
  | deleteUser id =>
      intro v hv
      simp only [applyOp] at hv
      exact h v (List.mem_filter.mp hv).1

/-- C8: in every store state reachable from the empty store by signup,
activation, update and delete, every row is either inactive with a non-null
activation token, or active with a null activation token; no other
combination of the two fields is reachable. -/
theorem C8_reachable_invariant (ops : List StoreOp) :
    ∀ u ∈ (runOps ops).users, goodUser u := by
  have main : ∀ (rest : List StoreOp) (st : Store), storeInv st →
      storeInv (List.foldl applyOp st rest) := by
    intro rest
    induction rest with
    | nil => intro st hst; exact hst
    | cons op more ih =>
        intro st hst
        exact ih (applyOp st op) (storeInv_applyOp st op hst)
  exact main ops Store.empty (by intro u hu; simp [Store.empty] at hu)

/-- Witness for C8 after a concrete signup: the created row is inactive and
holds its token. -/
theorem C8_witness :
    goodUser ⟨1, "user1", "user1@gmail.com", "h$pw", true, some "tok-abc"⟩ :=
  C8_reachable_invariant
    [StoreOp.signUp "user1" "user1@gmail.com" "h$pw" "tok-abc"]
    ⟨1, "user1", "user1@gmail.com", "h$pw", true, some "tok-abc"⟩
    (by decide)
